import Mathlib

/-!
# Verification of the remna-admin-bot API-client core

Shallow embedding of the repository's resilient API-client layer:

* `modules/config.py` — base-URL normalization (`_normalize_api_base_url`);
* `modules/api/client.py` — the request engine `RemnaAPI._make_request` with
  its retry/backoff policy and the envelope unwrap
  `RemnaAPI._unwrap_response_payload`;
* `modules/api/inbounds.py` — the inbound-membership resolver
  `InboundAPI.get_inbound_users`, its helper `matches_inbound_ref`, the
  activity test `_is_active_status`, and the online-count recency test
  `_is_recent` / `get_inbound_online_count`.

JSON payloads are modelled by the inductive `JValue`; Python `None` and JSON
`null` (indistinguishable in the Python runtime) are both `JValue.null`.
Python-level semantics that the source relies on (truthiness, `str()`,
`int()`, `dict.get`, `in`, iteration, `==` between numbers and bools) are
embedded as explicit total functions.  Network I/O performed by the code is
modelled as oracle state (`EngineEnv`, `Backend`) giving the outcome of each
call the code makes; exceptions are modelled with `Except Unit` where the
source can raise across the statement being modelled.
-/

/-- A JSON/Python value as it appears in decoded API payloads.  `null` stands
both for JSON `null` and Python `None` (the Python runtime does not
distinguish them).  Objects are association lists with (as in Python dicts)
unique keys; numbers are integers (the code never computes with non-integral
numbers on the paths specified). -/
inductive JValue where
  | null
  | bool (b : Bool)
  | num (n : Int)
  | str (s : String)
  | arr (xs : List JValue)
  | obj (fields : List (String × JValue))

/-- Python truthiness (`bool(v)`): `None`, `False`, `0`, `""`, `[]`, `{}` are
falsy, everything else truthy. -/
def truthy : JValue → Bool
  | .null => false
  | .bool b => b
  | .num n => n != 0
  | .str s => s != ""
  | .arr xs => !xs.isEmpty
  | .obj fields => !fields.isEmpty

/-- `a or b` in Python: `a` when truthy, else `b`. -/
def pyOr (a b : JValue) : JValue := if truthy a then a else b

/-- `dict.get(k)`: the value under the first matching key, `None` when absent. -/
def dictGet (fields : List (String × JValue)) (k : String) : JValue :=
  match fields.find? (fun p => p.1 == k) with
  | some p => p.2
  | none => .null

/-- `k in dict`: key presence. -/
def hasKey (fields : List (String × JValue)) (k : String) : Bool :=
  fields.any (fun p => p.1 == k)

def JValue.isObj : JValue → Bool
  | .obj _ => true
  | _ => false

def JValue.isNull : JValue → Bool
  | .null => true
  | _ => false

mutual
/-- Python `repr()` of a value (escape sequences inside strings are not
modelled; no specified path applies `repr`/`str` to a string containing
quotes). -/
def pyRepr : JValue → String
  | .null => "None"
  | .bool true => "True"
  | .bool false => "False"
  | .num n => toString n
  | .str s => "'" ++ s ++ "'"
  | .arr xs => "[" ++ pyReprList xs ++ "]"
  | .obj fields => "\x7b" ++ pyReprFields fields ++ "\x7d"

def pyReprList : List JValue → String
  | [] => ""
  | [x] => pyRepr x
  | x :: xs => pyRepr x ++ ", " ++ pyReprList xs

def pyReprFields : List (String × JValue) → String
  | [] => ""
  | [(k, v)] => "'" ++ k ++ "': " ++ pyRepr v
  | (k, v) :: xs => "'" ++ k ++ "': " ++ pyRepr v ++ ", " ++ pyReprFields xs
end

/-- Python `str()` of a value (`str(None) = "None"`, `str(True) = "True"`,
containers fall back to `repr`). -/
def pyStr : JValue → String
  | .str s => s
  | v => pyRepr v

/-- Python `==` restricted to hashable scalars (the only values the source
puts in sets or compares through `in`): numbers and booleans compare by
numeric value (`True == 1`), other types only to themselves. -/
def pyEq (a b : JValue) : Bool :=
  match a, b with
  | .null, .null => true
  | .bool x, .bool y => x == y
  | .bool x, .num y => (if x then (1 : Int) else 0) == y
  | .num x, .bool y => x == (if y then (1 : Int) else 0)
  | .num x, .num y => x == y
  | .str x, .str y => x == y
  | _, _ => false

/-- Digits of a decimal literal to a natural number, `none` on a non-digit. -/
def digitsToNat : List Char → Option Nat
  | [] => none
  | cs => go cs 0
where
  go : List Char → Nat → Option Nat
    | [], acc => some acc
    | c :: cs, acc =>
        if '0' ≤ c ∧ c ≤ '9' then go cs (acc * 10 + (c.toNat - '0'.toNat))
        else none

/-- Python `int(v)`: exact for ints, `True ↦ 1`/`False ↦ 0`, decimal strings
(with optional surrounding whitespace and sign) parse, everything else —
including `None` and non-numeric strings — raises (`.error`). -/
def pyInt (v : JValue) : Except Unit Int :=
  match v with
  | .num n => .ok n
  | .bool b => .ok (if b then 1 else 0)
  | .str s =>
      let cs := (s.data.dropWhile Char.isWhitespace).reverse.dropWhile Char.isWhitespace |>.reverse
      match cs with
      | '-' :: rest => match digitsToNat rest with
          | some n => .ok (-(n : Int))
          | none => .error ()
      | '+' :: rest => match digitsToNat rest with
          | some n => .ok (n : Int)
          | none => .error ()
      | rest => match digitsToNat rest with
          | some n => .ok (n : Int)
          | none => .error ()
  | _ => .error ()

/-- Python iteration `for x in v` over a truthy value: lists yield elements,
dicts yield their keys (as strings), strings yield one-character strings;
numbers and booleans raise `TypeError` (`.error`). -/
def iterPy : JValue → Except Unit (List JValue)
  | .arr xs => .ok xs
  | .obj fields => .ok (fields.map (fun p => JValue.str p.1))
  | .str s => .ok (s.data.map (fun c => JValue.str (String.mk [c])))
  | _ => .error ()

/-! ## `RemnaAPI._unwrap_response_payload` (client.py 65–78) -/

/-- Python `v is False`: identity with the singleton `False` object — true
exactly for the boolean `False`, false for `0`, `None`, and everything
else (unlike `==`). -/
def isPyFalse : JValue → Bool
  | .bool false => true
  | _ => false

/-- `RemnaAPI._unwrap_response_payload`: non-dicts pass through; a dict
yields its `response` value when that key exists, else its `data` value when
that key exists, else `None` when `success` is identically `False` and
`error` is a key, else the dict itself.  The Python `return None` is
`JValue.null` (the caller cannot distinguish it from a JSON null payload). -/
def unwrapResponsePayload (payload : JValue) : JValue :=
  match payload with
  | .obj fields =>
      if hasKey fields "response" then dictGet fields "response"
      else if hasKey fields "data" then dictGet fields "data"
      else if isPyFalse (dictGet fields "success") && hasKey fields "error" then .null
      else .obj fields
  | v => v

/-! ## `_normalize_api_base_url` (config.py 55–68)

The source calls `urllib.parse.urlparse`/`urlunparse`.  They are modelled
here for the URL shapes the configuration accepts — `scheme://netloc[/path]`
with no query, fragment or params components (the claims and the `.env`
contract only feed such base URLs). -/

/-- Does `pat` occur at the head of `l`? -/
def leadsWith : List Char → List Char → Bool
  | [], _ => true
  | _ :: _, [] => false
  | p :: ps, c :: cs => p == c && leadsWith ps cs

/-- Split `l` at the first occurrence of `sep`, when it occurs. -/
def splitFirst (sep : List Char) : List Char → Option (List Char × List Char)
  | [] => none
  | c :: cs =>
      if leadsWith sep (c :: cs) then some ([], (c :: cs).drop sep.length)
      else match splitFirst sep cs with
        | some (pre, post) => some (c :: pre, post)
        | none => none

/-- The result of `urllib.parse.urlparse` on the modelled URL shapes. -/
structure ParsedUrl where
  scheme : String
  netloc : String
  path : String

/-- `urllib.parse.urlparse` modelled on `scheme://netloc[/path]` inputs
without query/fragment/params: the scheme (lowercased, as in CPython) is the
text before `://`, the netloc runs to the next `/`, the path is the rest.  A
string without `://` is all path. -/
def urlparse (s : String) : ParsedUrl :=
  match splitFirst ("://".data) s.data with
  | none => { scheme := "", netloc := "", path := s }
  | some (schemeCs, rest) =>
      { scheme := String.mk (schemeCs.map Char.toLower)
        netloc := String.mk (rest.takeWhile (fun c => c ≠ '/'))
        path := String.mk (rest.dropWhile (fun c => c ≠ '/')) }

/-- `urllib.parse.urlunparse` with empty params/query/fragment: the path,
preceded by `//netloc` when a netloc is present (or the path already starts
with `//`), preceded by `scheme:` when a scheme is present. -/
def urlunparse (u : ParsedUrl) : String :=
  let url := u.path
  let url := if u.netloc ≠ "" || leadsWith "//".data url.data then "//" ++ u.netloc ++ url else url
  if u.scheme ≠ "" then u.scheme ++ ":" ++ url else url

/-- Python `value.strip()` (whitespace at both ends). -/
def pyStrip (s : String) : String :=
  String.mk ((s.data.dropWhile Char.isWhitespace).reverse.dropWhile Char.isWhitespace).reverse

/-- Python `s.rstrip("/")`. -/
def rstripSlash (s : String) : String :=
  String.mk (s.data.reverse.dropWhile (fun c => c == '/')).reverse

/-- Split a path on `/` keeping the non-empty parts
(`[part for part in path.split("/") if part]`). -/
def pathParts (s : String) : List String :=
  go s.data [] |>.reverse
where
  go : List Char → List Char → List String
    | [], acc => if acc.isEmpty then [] else [String.mk acc.reverse]
    | '/' :: cs, acc =>
        if acc.isEmpty then go cs [] else String.mk acc.reverse :: go cs []
    | c :: cs, acc => go cs (c :: acc)

/-- `_normalize_api_base_url` (config.py 55–68): strip the raw value; an empty
value falls back to the default `http://remnawave:3000/api`; otherwise strip
trailing slashes off the parsed path, replace an empty path by `/api`, append
`/api` when no path segment equals `api`, and re-assemble the URL. -/
def normalizeApiBaseUrl (value : String) : String :=
  let raw := pyStrip value
  if raw == "" then "http://remnawave:3000/api"
  else
    let parsed := urlparse raw
    let path := rstripSlash parsed.path
    let path :=
      if path == "" then "/api"
      else if (pathParts path).contains "api" then path
      else path ++ "/api"
    urlunparse { parsed with path := path }

/-! ## `RemnaAPI._make_request` (client.py 81–218)

One logical request with retries.  Each attempt's network interaction is an
oracle (`EngineEnv`): `outcomes i` is what the HTTP call issued on loop
iteration `i` would produce, `preflightOk` the result of the single possible
`_test_connection` call (it can only run on attempt 0).  The function
returns the Python return value (`JValue.null` for `None`) together with the
ordered list of observable events: preflight checks, `asyncio.sleep`
durations (in seconds), and main HTTP requests issued. -/

/-- The outcome of one issued HTTP call, as `_make_request` can observe it:
either a completed response (status; whether the content-type contains
`application/json`; whether the body is blank; the parsed JSON when
`response.json()` succeeds, `none` when it raises), or one of the `httpx`
exception classes the handlers distinguish.  `otherTimeout` is a
`TimeoutException` that is neither `ConnectTimeout` nor `ReadTimeout`;
`otherError` is any exception reaching the final `except Exception`. -/
inductive HttpOutcome where
  | resp (status : Nat) (ctJson : Bool) (bodyEmpty : Bool) (parse : Option JValue)
  | connectError
  | connectTimeout
  | readTimeout
  | otherTimeout
  | protocolError
  | otherError

/-- Observable events of one `_make_request` run. -/
inductive Event where
  | preflight (ok : Bool)
  | sleep (secs : Nat)
  | request (attempt : Nat)
deriving DecidableEq, Repr

/-- The oracle for one `_make_request` run. -/
structure EngineEnv where
  preflightEnabled : Bool
  preflightOk : Bool
  outcomes : Nat → HttpOutcome

/-- The common retry epilogue of every handler: when another attempt remains
(`attempt < retry_count - 1`) sleep `w` seconds and continue with `next` (the
rest of the loop), else return `None`. -/
def retryOr (rc attempt w : Nat) (next : JValue × List Event) : JValue × List Event :=
  if attempt + 1 < rc then (next.1, Event.request attempt :: Event.sleep w :: next.2)
  else (JValue.null, [Event.request attempt])

/-- One loop iteration of `_make_request` after the preflight gate: issue the
main request and dispatch on its outcome exactly as the `try`/`except`
ladder does.  `next` is the continuation (the remaining iterations).

Python dispatches an exception to the first matching `except` clause:
`httpx.ConnectTimeout` and `httpx.ReadTimeout` are subclasses of
`httpx.TimeoutException`, so both are caught by the `TimeoutException`
handler at client.py 154 (wait `min(2**attempt, 10)`); the dedicated
`ConnectTimeout`/`ReadTimeout` handlers at 187/197 are unreachable.
`RemoteProtocolError` is not a timeout, so it reaches its own handler. -/
def attemptStep (env : EngineEnv) (rc attempt : Nat) (next : JValue × List Event) :
    JValue × List Event :=
  match env.outcomes attempt with
  | .resp status ctJson bodyEmpty parse =>
      if 500 ≤ status then
        -- client.py 119–123; when no attempt remains, `raise_for_status`
        -- raises and the `HTTPStatusError` handler (164–175) returns `None`.
        retryOr rc attempt (2 ^ attempt) next
      else if !(200 ≤ status && status < 300) then
        -- `raise_for_status` raises for any non-2xx (after redirects);
        -- `HTTPStatusError` handler: 404 and every other sub-500 status
        -- return `None` with no retry.
        (JValue.null, [Event.request attempt])
      else if status == 204 || status == 205 then (JValue.null, [Event.request attempt])
      else if !ctJson then (JValue.null, [Event.request attempt])
      else if bodyEmpty then (JValue.null, [Event.request attempt])
      else
        match parse with
        | some j => (unwrapResponsePayload j, [Event.request attempt])
        | none => retryOr rc attempt (2 ^ attempt) next  -- json() raised → `except Exception` (207–216)
  | .connectError => retryOr rc attempt (2 ^ attempt) next            -- client.py 144–152
  | .connectTimeout => retryOr rc attempt (min (2 ^ attempt) 10) next -- caught at client.py 154–162
  | .readTimeout => retryOr rc attempt (min (2 ^ attempt) 10) next    -- caught at client.py 154–162
  | .otherTimeout => retryOr rc attempt (min (2 ^ attempt) 10) next   -- client.py 154–162
  | .protocolError => retryOr rc attempt (2 ^ attempt) next           -- client.py 177–185
  | .otherError => retryOr rc attempt (2 ^ attempt) next              -- client.py 207–216

/-- The `for attempt in range(retry_count)` loop, by recursion on the number
`k` of iterations left, so the current attempt is `rc - k`.  Attempt 0 runs
the preflight gate (client.py 91–99): on preflight failure the main call is
skipped and the run aborts when `retry_count <= 1`, else sleeps a fixed 2
seconds and `continue`s — to attempt 1, where `attempt == 0` no longer
holds, so the preflight is not re-run.  Falling out of the loop returns
`None` (client.py 218). -/
def runLoop (env : EngineEnv) (rc : Nat) : Nat → JValue × List Event
  | 0 => (JValue.null, [])
  | k + 1 =>
      let attempt := rc - (k + 1)
      let next := runLoop env rc k
      if env.preflightEnabled && attempt == 0 then
        if env.preflightOk then
          let r := attemptStep env rc attempt next
          (r.1, Event.preflight true :: r.2)
        else if rc ≤ 1 then (JValue.null, [Event.preflight false])
        else (next.1, Event.preflight false :: Event.sleep 2 :: next.2)
      else attemptStep env rc attempt next

/-- `RemnaAPI._make_request` with attempt budget `rc` (`retry_count`,
default 3): its Python return value and its event trace. -/
def makeRequest (env : EngineEnv) (rc : Nat) : JValue × List Event :=
  runLoop env rc rc

/-- Does this outcome carry a 5xx status? -/
def isServerErrorResp : HttpOutcome → Bool
  | .resp s _ _ _ => 500 ≤ s
  | _ => false

/-- An outcome that makes the attempt return the unwrapped payload rather
than fall into a handler: a 2xx (non-204/205) JSON response with a non-blank
body that parses. -/
def isUsableOutcome : HttpOutcome → Bool
  | .resp s ct be (some _) => (200 ≤ s && s < 300) && !(s == 204 || s == 205) && ct && !be
  | _ => false

def isPreflightEvent : Event → Bool
  | .preflight _ => true
  | _ => false

/-- The event trace of a run whose every attempt fails into a retrying
handler with delay `d i` at attempt `i`: requests `0..rc-1`, each but the
last followed by its backoff sleep. -/
def allFailTrace (rc : Nat) (d : Nat → Nat) : List Event :=
  (List.range rc).flatMap fun i =>
    Event.request i :: (if i + 1 < rc then [Event.sleep (d i)] else [])

/-! ## `InboundAPI` (inbounds.py)

The resolver calls the resource clients `UserAPI.get_all_users`,
`ConfigProfileAPI.get_profiles`, `get_profile_inbounds`, and
`get_profile_users` (thin wrappers that live outside the specified core).
Their return values are the oracle state `Backend`; the two per-profile
calls may raise (the resolver catches that), so they return `Except`. -/

def strUpper (s : String) : String := String.mk (s.data.map Char.toUpper)

def strLower (s : String) : String := String.mk (s.data.map Char.toLower)

/-- `InboundAPI._is_active_status` (inbounds.py 12–23): `None` is inactive,
booleans count as themselves, otherwise `str(value).strip().upper()` must be
one of `ACTIVE`, `ENABLED`, `TRUE`, `ON`. -/
def isActiveStatus : JValue → Bool
  | .null => false
  | .bool b => b
  | v =>
      let t := strUpper (pyStrip (pyStr v))
      t == "ACTIVE" || t == "ENABLED" || t == "TRUE" || t == "ON"

/-- The tag+port+type conjunction of `matches_inbound_ref` (inbounds.py
66–77), evaluated inside its own `try`: tags both truthy and equal as
strings, both a port (`port`, else `listenPort`) present with equal `int()`
values (an `int()` failure raises and yields `False`), types both truthy and
equal as strings. -/
def fallbackTriple (refF tgtF : List (String × JValue)) : Bool :=
  let tagOk := truthy (dictGet refF "tag") && truthy (dictGet tgtF "tag")
      && pyStr (dictGet refF "tag") == pyStr (dictGet tgtF "tag")
  let refPort := if !(dictGet refF "port").isNull then dictGet refF "port"
      else dictGet refF "listenPort"
  let tgtPort := if !(dictGet tgtF "port").isNull then dictGet tgtF "port"
      else dictGet tgtF "listenPort"
  if !refPort.isNull && !tgtPort.isNull then
    match pyInt refPort, pyInt tgtPort with
    | .ok a, .ok b =>
        let typeOk := truthy (dictGet refF "type") && truthy (dictGet tgtF "type")
            && pyStr (dictGet refF "type") == pyStr (dictGet tgtF "type")
        tagOk && (a == b) && typeOk
    | _, _ => false
  else false

/-- `matches_inbound_ref(ref, tgt)` (inbounds.py 54–78), closed over the
queried `inbound_uuid`: `None` never matches; a bare string matches by
equality with the queried UUID; a non-dict never matches; a dict matches
when `str(ref.get('uuid'))` equals the queried UUID, and otherwise — whether
or not the dict carries a `uuid` — falls back to the tag+port+type triple
against the target whenever the target is a truthy dict. -/
def matchesInboundRef (inboundUuid : String) (ref tgt : JValue) : Bool :=
  match ref with
  | .null => false
  | .str s => s == inboundUuid
  | .obj refF =>
      if pyStr (dictGet refF "uuid") == inboundUuid then true
      else
        match tgt with
        | .obj tgtF => if tgtF.isEmpty then false else fallbackTriple refF tgtF
        | _ => false
  | _ => false

/-- Oracle state for one `get_inbound_users` / `get_inbound_online_count`
query: the values the four backend calls return.  `profileInbounds` and
`profileUsers` receive the argument value the source passes and may raise. -/
structure Backend where
  inboundsResp : JValue
  profilesResp : JValue
  profileInbounds : JValue → Except Unit JValue
  usersResp : JValue
  profileUsers : JValue → Except Unit JValue

/-- `InboundAPI.get_inbounds` (inbounds.py 25–34): unwraps an `inbounds` key
when the payload is a dict carrying one. -/
def getInbounds (b : Backend) : JValue :=
  match b.inboundsResp with
  | .obj f => if hasKey f "inbounds" then dictGet f "inbounds" else .obj f
  | v => v

/-- The `next(...)` target search (inbounds.py 49): first list element whose
`str(i.get('uuid'))` equals the queried UUID.  A non-dict element reached
before a match raises `AttributeError`, which the surrounding `try` turns
into `target = None`. -/
def findTarget (uuid : String) : List JValue → JValue
  | [] => .null
  | .obj f :: rest => if pyStr (dictGet f "uuid") == uuid then .obj f else findTarget uuid rest
  | _ :: _ => .null

/-- Target resolution (inbounds.py 47–52): iterate `all_inbounds or []`;
any exception (including iterating a truthy non-list, whose elements are
not dicts) leaves `target = None`. -/
def resolveTarget (b : Backend) (uuid : String) : JValue :=
  match pyOr (getInbounds b) (.arr []) with
  | .arr items => findTarget uuid items
  | _ => .null

/-- The `any(ib.get("uuid") == inbound_uuid for ib in ...)` test of the
profile-index builder (inbounds.py 89), lazily: a match before a non-dict
element wins; a non-dict element reached first raises (`.error`), which the
inner `try` turns into skipping the profile. -/
def anyProfileInboundMatches (uuid : String) : List JValue → Except Unit Bool
  | [] => .ok false
  | .obj f :: rest =>
      if pyEq (dictGet f "uuid") (.str uuid) then .ok true
      else anyProfileInboundMatches uuid rest
  | _ :: _ => .error ()

/-- The profile-membership index loop (inbounds.py 80–94): for each profile
dict, take `uuid` or `id`; skip falsy ids; fetch the profile's inbounds
(failure: skip the profile); record the id in the set when the queried UUID
appears.  A non-dict profile raises at `profile.get` and the outer `except`
keeps the partial set; `set.add` of an unhashable id raises inside the
inner `try`, which only skips that profile.  The set is modelled as a
duplicate-free list in insertion order. -/
def buildProfileIndexLoop (b : Backend) (uuid : String) :
    List JValue → List JValue → List JValue
  | [], acc => acc
  | .obj pf :: rest, acc =>
      let puuid := pyOr (dictGet pf "uuid") (dictGet pf "id")
      if !truthy puuid then buildProfileIndexLoop b uuid rest acc
      else
        match b.profileInbounds puuid with
        | .error _ => buildProfileIndexLoop b uuid rest acc
        | .ok pinb =>
            match iterPy (pyOr pinb (.arr [])) with
            | .error _ => buildProfileIndexLoop b uuid rest acc
            | .ok elems =>
                match anyProfileInboundMatches uuid elems with
                | .error _ => buildProfileIndexLoop b uuid rest acc
                | .ok true =>
                    match puuid with
                    | .arr _ => buildProfileIndexLoop b uuid rest acc
                    | .obj _ => buildProfileIndexLoop b uuid rest acc
                    | _ =>
                        buildProfileIndexLoop b uuid rest
                          (if acc.any (fun x => pyEq x puuid) then acc else acc ++ [puuid])
                | .ok false => buildProfileIndexLoop b uuid rest acc
  | _ :: _, acc => acc

/-- The config-profile-UUID extraction expression (inbounds.py 161–163 and
169–171).  The source text reads `sub.get('configProfileUuid') or
nested-uuid if isinstance(sub.get('configProfile'), dict) else
sub.get('configProfile')`; Python's conditional expression binds loosest, so
the whole `or` is the ternary's true arm: when `configProfile` is not a
dict the expression evaluates to `sub.get('configProfile')` and the
`configProfileUuid` field is never consulted. -/
def resolveCpuFrom (f : List (String × JValue)) : JValue :=
  match dictGet f "configProfile" with
  | .obj cf => pyOr (dictGet f "configProfileUuid") (dictGet cf "uuid")
  | other => other

/-- The `for sub in ...` profile-resolution loop (inbounds.py 158–166):
non-dict items are skipped, the first truthy extraction wins.  (When no item
yields a truthy value the Python variable holds the last — falsy — value;
every later use is guarded by truthiness, so `.null` is observationally
identical.) -/
def resolveCpuItems : List JValue → JValue
  | [] => .null
  | .obj f :: rest =>
      let c := resolveCpuFrom f
      if truthy c then c else resolveCpuItems rest
  | _ :: rest => resolveCpuItems rest

/-- The on-demand profile verification (inbounds.py 181–190): fetch
`get_profile_inbounds(str(cpu))` and test `matches_inbound_ref` over the
iterated result; any exception in the fetch or the iteration is caught by
the local `try` and reads as "no match". -/
def onDemandCheck (b : Backend) (uuid : String) (target cpu : JValue) : Bool :=
  match b.profileInbounds (.str (pyStr cpu)) with
  | .error _ => false
  | .ok pi =>
      match iterPy (pyOr pi (.arr [])) with
      | .error _ => false
      | .ok elems => elems.any (fun p => matchesInboundRef uuid p target)

/-- One user of the main scan (inbounds.py 122–190).  Inactive users
contribute nothing.  Otherwise: normalize the singular `subscription` (when
a truthy dict) and the `subscriptions` list entries (dicts only) into
`subItems`; a direct `sub.inbounds` match appends the user and empties the
item list (`subscription_items = []` before `break`), after which control
still reaches the profile-resolution block; that block scans
`subscription_items or [subscription or {}]`, falls back to the same
extraction on the user's own fields, and on a truthy profile id appends the
user when the id is in the precomputed index (membership test on a
non-empty set; hashing an unhashable id raises out of the function) or,
failing that, when the on-demand check matches.  A user can therefore be
appended twice. -/
def processUser (b : Backend) (uuid : String) (target : JValue) (index : List JValue)
    (uf : List (String × JValue)) : Except Unit (List JValue) :=
  if !isActiveStatus (dictGet uf "status") then .ok []
  else
    let subscription := dictGet uf "subscription"
    let subItems : List JValue :=
      (match subscription with
       | .obj sf => if sf.isEmpty then [] else [JValue.obj sf]
       | _ => []) ++
      (match dictGet uf "subscriptions" with
       | .arr l => l.filter JValue.isObj
       | _ => [])
    let directHit := subItems.any fun sub =>
      match sub with
      | .obj sf =>
          (match pyOr (dictGet sf "inbounds") (.arr []) with
           | .arr sibs => sibs.any (fun si => matchesInboundRef uuid si target)
           | _ => false)
      | _ => false
    let resolveItems :=
      if directHit || subItems.isEmpty then [pyOr subscription (.obj [])] else subItems
    let cpu :=
      let c := resolveCpuItems resolveItems
      if truthy c then c else resolveCpuFrom uf
    let fromDirect := if directHit then [JValue.obj uf] else []
    if !truthy cpu then .ok fromDirect
    else if !index.isEmpty then
      match cpu with
      | .arr _ => .error ()
      | .obj _ => .error ()
      | _ =>
          if index.any (fun x => pyEq x cpu) then .ok (fromDirect ++ [JValue.obj uf])
          else if onDemandCheck b uuid target cpu then .ok (fromDirect ++ [JValue.obj uf])
          else .ok fromDirect
    else if onDemandCheck b uuid target cpu then .ok (fromDirect ++ [JValue.obj uf])
    else .ok fromDirect

/-- The main scan over all users (inbounds.py 122–190).  A non-dict user
raises at `user.get('status')`; only the function-level `try` catches that,
so the whole query collapses to `[]`. -/
def scanUsers (b : Backend) (uuid : String) (target : JValue) (index : List JValue) :
    List JValue → Except Unit (List JValue)
  | [] => .ok []
  | .obj uf :: rest => do
      let here ← processUser b uuid target index uf
      let more ← scanUsers b uuid target index rest
      .ok (here ++ more)
  | _ :: _ => .error ()

/-- One legacy field of the alternative approach (inbounds.py 204–219):
skip falsy values; iterating a truthy non-iterable raises out of the
function; otherwise the user matches when any element matches. -/
def legacyFieldCheck (uuid : String) (target v : JValue) : Except Unit Bool :=
  if !truthy v then .ok false
  else match iterPy v with
    | .error _ => .error ()
    | .ok elems => .ok (elems.any (fun e => matchesInboundRef uuid e target))

/-- The alternative approach (inbounds.py 199–219), run only when the main
scan found nobody: re-scan active users' `inbounds` and `activeInbounds`
fields; a user matching both is appended twice. -/
def legacyScan (uuid : String) (target : JValue) : List JValue → Except Unit (List JValue)
  | [] => .ok []
  | .obj uf :: rest =>
      if isActiveStatus (dictGet uf "status") then do
        let hitA ← legacyFieldCheck uuid target (dictGet uf "inbounds")
        let hitB ← legacyFieldCheck uuid target (dictGet uf "activeInbounds")
        let more ← legacyScan uuid target rest
        .ok ((if hitA then [JValue.obj uf] else []) ++
             (if hitB then [JValue.obj uf] else []) ++ more)
      else legacyScan uuid target rest
  | _ :: _ => .error ()

/-- The tag heuristic (inbounds.py 221–233), run only when still empty and
the target is a dict with a truthy tag: append every active user whose
stripped lowercased `tag` equals the target's.  Its `try` wraps the whole
loop, so a non-dict user aborts the loop keeping earlier appends. -/
def tagScan (tTag : String) : List JValue → List JValue
  | [] => []
  | .obj uf :: rest =>
      if isActiveStatus (dictGet uf "status") then
        let uTag := strLower (pyStrip (pyStr (pyOr (dictGet uf "tag") (.str ""))))
        if uTag != "" && uTag == tTag then JValue.obj uf :: tagScan tTag rest
        else tagScan tTag rest
      else tagScan tTag rest
  | _ :: _ => []

/-- Deduplicated collection of one profile's users (inbounds.py 243–248):
dict entries whose `str(uuid)` is non-empty and unseen are appended. -/
def collectFromProfile (elems : List JValue) (seen : List String) :
    List JValue × List String :=
  elems.foldl
    (fun acc u =>
      match u with
      | .obj f =>
          let uu := pyStr (dictGet f "uuid")
          if uu != "" && !acc.2.contains uu then (acc.1 ++ [JValue.obj f], uu :: acc.2)
          else acc
      | _ => acc)
    ([], seen)

/-- The profile-users final fallback (inbounds.py 236–253): for each profile
id in the index, fetch its user list (failures skip the profile) and union
the dict entries deduplicated by `str(uuid)` across profiles. -/
def collectProfileUsers (b : Backend) : List JValue → List String → List JValue
  | [], _ => []
  | p :: ps, seen =>
      match b.profileUsers p with
      | .error _ => collectProfileUsers b ps seen
      | .ok pu =>
          match iterPy (pyOr pu (.arr [])) with
          | .error _ => collectProfileUsers b ps seen
          | .ok elems =>
              let (added, seen') := collectFromProfile elems seen
              added ++ collectProfileUsers b ps seen'

/-- `InboundAPI.get_inbound_users` (inbounds.py 42–285) before the
function-level `except`: resolve the target, build the profile index,
extract the user list (`{users: [...]}` or a bare list), run the main scan,
then — each stage only when the previous produced nobody — the legacy-field
scan, the tag heuristic, and the profile-users fallback. -/
def getInboundUsersCore (b : Backend) (uuid : String) : Except Unit (List JValue) := do
  let target := resolveTarget b uuid
  let index :=
    match pyOr b.profilesResp (.arr []) with
    | .arr profiles => buildProfileIndexLoop b uuid profiles []
    | _ => []
  if !truthy b.usersResp then return []
  let usersJ :=
    match b.usersResp with
    | .obj f => if hasKey f "users" then dictGet f "users" else JValue.arr []
    | .arr l => JValue.arr l
    | _ => JValue.arr []
  if !truthy usersJ then return []
  let users ← match usersJ with
    | .arr l => Except.ok l
    | _ => Except.error ()
  let found ← scanUsers b uuid target index users
  let found ← if found.isEmpty then legacyScan uuid target users else Except.ok found
  let found :=
    if found.isEmpty then
      match target with
      | .obj tf =>
          if truthy (dictGet tf "tag") then
            tagScan (strLower (pyStrip (pyStr (dictGet tf "tag")))) users
          else []
      | _ => []
    else found
  let found :=
    if found.isEmpty && !index.isEmpty then collectProfileUsers b index []
    else found
  return found

/-- `InboundAPI.get_inbound_users`: any exception escaping the body is
caught at inbounds.py 283–285 and the call returns `[]`. -/
def getInboundUsers (b : Backend) (uuid : String) : List JValue :=
  match getInboundUsersCore b uuid with
  | .ok l => l
  | .error _ => []

/-! ## Online count (inbounds.py 297–352)

`get_inbound_online_count` is modelled at the post-extraction, post-parse
level: each user contributes its `status` value and the result of
`_parse_dt(user.get('onlineAt'))`, an instant modelled as seconds on the
UTC timeline (`none` when absent or unparseable); `datetime.now` is the
parameter `now`.  `timedelta(minutes=m)` is `m * 60` seconds. -/

structure OUser where
  status : JValue
  onlineAt : Option Int

/-- `InboundAPI._is_recent` (inbounds.py 309–319): `False` without a
timestamp, else `now - ts <= timedelta(minutes=minutes)` — an upper bound on
the age only, with no lower bound. -/
def isRecentAt (now : Int) (ts : Option Int) (minutes : Int) : Bool :=
  match ts with
  | none => false
  | some t => now - t ≤ minutes * 60

/-- The counting loop of `InboundAPI.get_inbound_online_count` (inbounds.py
336–345): active users whose parsed `onlineAt` passes `_is_recent` with the
5-minute window. -/
def onlineCount (now : Int) (users : List OUser) : Nat :=
  users.countP (fun u => isActiveStatus u.status && isRecentAt now u.onlineAt 5)

/-! ## Concrete inputs used by the claim theorems -/

/-- User `U1` of the resolver scenario: active, `configProfileUuid = P1`. -/
def c1U1 : JValue :=
  .obj [("uuid", .str "U1"), ("status", .str "ACTIVE"), ("configProfileUuid", .str "P1")]

/-- User `U2` of the resolver scenario: active, subscription with a direct
`inbounds` entry `{uuid: I1}`. -/
def c1U2 : JValue :=
  .obj [("uuid", .str "U2"), ("status", .str "ACTIVE"),
    ("subscription", .obj [("inbounds", .arr [.obj [("uuid", .str "I1")]])])]

/-- User `U3` of the resolver scenario: inactive, `configProfileUuid = P1`. -/
def c1U3 : JValue :=
  .obj [("uuid", .str "U3"), ("status", .str "DISABLED"), ("configProfileUuid", .str "P1")]

/-- Backend state of the resolver scenario: inbound `I1`; profile `P1`
containing `I1` and profile `P2` not containing it; users `U1`, `U2`, `U3`. -/
def c1Backend : Backend :=
  { inboundsResp := .arr [.obj [("uuid", .str "I1")]]
    profilesResp := .arr [.obj [("uuid", .str "P1")], .obj [("uuid", .str "P2")]]
    profileInbounds := fun v =>
      match v with
      | .str "P1" => .ok (.arr [.obj [("uuid", .str "I1")]])
      | _ => .ok (.arr [])
    usersResp := .arr [c1U1, c1U2, c1U3]
    profileUsers := fun _ => .ok (.arr []) }

/-- An inbound reference whose `uuid` (`X`) differs from the queried/target
UUID (`I1`) but whose tag, port and type equal the target's. -/
def c6refF : List (String × JValue) :=
  [("uuid", .str "X"), ("tag", .str "t"), ("port", .num 443), ("type", .str "vless")]

/-- The target inbound record for the matching counterexample. -/
def c6tgtF : List (String × JValue) :=
  [("uuid", .str "I1"), ("tag", .str "t"), ("port", .num 443), ("type", .str "vless")]

/-- Engine oracle: every attempt completes with HTTP 503. -/
def c3Env : EngineEnv :=
  { preflightEnabled := false, preflightOk := true
    outcomes := fun _ => .resp 503 true false none }

/-- Engine oracle: two 503 responses, then a usable 200 JSON response whose
envelope carries `{response: 5}`. -/
def c3EnvB : EngineEnv :=
  { preflightEnabled := false, preflightOk := true
    outcomes := fun i =>
      if i < 2 then .resp 503 true false none
      else .resp 200 true false (some (.obj [("response", .num 5)])) }

/-- Engine oracle: every attempt fails to connect. -/
def c4Env : EngineEnv :=
  { preflightEnabled := false, preflightOk := true, outcomes := fun _ => .connectError }

/-- Engine oracle: every attempt completes with HTTP 404. -/
def c5Env : EngineEnv :=
  { preflightEnabled := false, preflightOk := true
    outcomes := fun _ => .resp 404 true false none }

/-- Engine oracle: preflight enabled and failing; attempts fail to connect. -/
def c7Env : EngineEnv :=
  { preflightEnabled := true, preflightOk := false, outcomes := fun _ => .connectError }

/-- Engine oracle: every attempt raises `httpx.ConnectTimeout`. -/
def c8Env : EngineEnv :=
  { preflightEnabled := false, preflightOk := true, outcomes := fun _ => .connectTimeout }

/-! ## Theorems -/

/-- C9: Base URL normalization guarantees an `/api` path segment:
`http://host:3000 ↦ http://host:3000/api`, `http://host:3000/api` is
unchanged, and `http://host:3000/api/ ↦ http://host:3000/api`. -/
theorem c9_base_url_normalization :
    normalizeApiBaseUrl "http://host:3000" = "http://host:3000/api"
    ∧ normalizeApiBaseUrl "http://host:3000/api" = "http://host:3000/api"
    ∧ normalizeApiBaseUrl "http://host:3000/api/" = "http://host:3000/api" := by
  refine ⟨?_, ?_, ?_⟩ <;> rfl

/-- C2: envelope unwrap is a pure function evaluated in a fixed order: a
non-object is returned as-is; an object with key `response` yields that
value; else one with key `data` yields that value; else `success = false`
together with an `error` key yields `null`; else the object passes through
unchanged — including the spec's four concrete laws. -/
theorem c2_unwrap_laws (x : JValue) (f : List (String × JValue)) :
    unwrapResponsePayload (.obj [("response", x)]) = x
    ∧ unwrapResponsePayload (.obj [("data", x)]) = x
    ∧ unwrapResponsePayload (.obj [("success", .bool false), ("error", .str "e")]) = .null
    ∧ (x.isObj = false → unwrapResponsePayload x = x)
    ∧ (hasKey f "response" = true → unwrapResponsePayload (.obj f) = dictGet f "response")
    ∧ (hasKey f "response" = false → hasKey f "data" = true →
        unwrapResponsePayload (.obj f) = dictGet f "data")
    ∧ (hasKey f "response" = false → hasKey f "data" = false →
        isPyFalse (dictGet f "success") = true → hasKey f "error" = true →
        unwrapResponsePayload (.obj f) = .null)
    ∧ (hasKey f "response" = false → hasKey f "data" = false →
        (isPyFalse (dictGet f "success") = false ∨ hasKey f "error" = false) →
        unwrapResponsePayload (.obj f) = .obj f) := by
  refine ⟨rfl, rfl, rfl, ?_, ?_, ?_, ?_, ?_⟩
  · intro h; cases x <;> simp_all [unwrapResponsePayload, JValue.isObj]
  · intro h1; simp [unwrapResponsePayload, h1]
  · intro h1 h2; simp [unwrapResponsePayload, h1, h2]
  · intro h1 h2 h3 h4; simp [unwrapResponsePayload, h1, h2, h3, h4]
  · intro h1 h2 h3
    rcases h3 with h3 | h3 <;> simp [unwrapResponsePayload, h1, h2, h3]

/-- Witness for C2 at concrete inputs: a bare number passes through, and an
object lacking all three markers passes through. -/
theorem c2_unwrap_laws_witness :
    unwrapResponsePayload (.num 7) = .num 7
    ∧ unwrapResponsePayload (.obj [("k", .num 1)]) = .obj [("k", .num 1)] := by
  have h := c2_unwrap_laws (.num 7) [("k", .num 1)]
  exact ⟨h.2.2.2.1 rfl, h.2.2.2.2.2.2.2 rfl rfl (Or.inl rfl)⟩

/-- C1 (the code violates the claim): on the scenario backend — inbound
`I1`; profile `P1` containing `I1`, `P2` not; `U1` active with
`configProfileUuid = P1`, `U2` active with a direct subscription inbound
`{uuid: I1}`, `U3` inactive — `get_inbound_users("I1")` returns only `U2`:
the conditional-expression precedence slip in the profile-UUID extraction
(inbounds.py 158–172) discards `U1`'s `configProfileUuid` because `U1`
carries no nested `configProfile` dict, so the claimed result `{U1, U2}`
is not produced. -/
theorem c1_resolver_scenario_eval : getInboundUsers c1Backend "I1" = [c1U2] := by rfl

/-- C10: the online count treats a future `onlineAt` as online: `_is_recent`
only bounds `now - ts` from above by 5 minutes, so any active user whose
timestamp parses to an instant after `now` passes the test and makes the
count positive. -/
theorem c10_future_online_counted (now t : Int) (u : OUser) (users : List OUser)
    (hmem : u ∈ users) (hact : isActiveStatus u.status = true)
    (hts : u.onlineAt = some t) (hfut : now < t) :
    isRecentAt now u.onlineAt 5 = true ∧ 0 < onlineCount now users := by
  have hr : isRecentAt now u.onlineAt 5 = true := by
    rw [hts]; simp only [isRecentAt, decide_eq_true_eq]; omega
  refine ⟨hr, ?_⟩
  exact List.countP_pos_iff.mpr ⟨u, hmem, by simp [hact, hr]⟩

/-- Witness for C10: with `now = 0`, an active user whose parsed `onlineAt`
is one hour in the future is counted. -/
theorem c10_future_online_counted_witness :
    isRecentAt 0 (OUser.mk (.str "ACTIVE") (some 3600)).onlineAt 5 = true
    ∧ 0 < onlineCount 0 [OUser.mk (.str "ACTIVE") (some 3600)] := by
  exact c10_future_online_counted 0 3600 (OUser.mk (.str "ACTIVE") (some 3600))
    [OUser.mk (.str "ACTIVE") (some 3600)] (by simp) (by rfl) rfl (by omega)

/-- Every attempt either returns `None`, hands control to the remaining
iterations, or its outcome was a usable JSON response. -/
theorem attemptStep_result (env : EngineEnv) (rc a : Nat) (next : JValue × List Event) :
    (attemptStep env rc a next).1 = JValue.null ∨ (attemptStep env rc a next).1 = next.1
    ∨ isUsableOutcome (env.outcomes a) = true := by
  unfold attemptStep retryOr
  cases ho : env.outcomes a <;> dsimp only
  case resp s ct be p =>
    cases p <;> dsimp only <;> (repeat' split) <;> simp_all [isUsableOutcome]
  all_goals (split <;> simp)

/-- When no attempt's outcome is usable, every suffix of the loop returns
`None`. -/
theorem runLoop_null (env : EngineEnv) (rc : Nat)
    (h : ∀ i, isUsableOutcome (env.outcomes i) = false) (k : Nat) :
    (runLoop env rc k).1 = JValue.null := by
  induction k with
  | zero => rfl
  | succ k IH =>
      have hstep :
          (attemptStep env rc (rc - (k + 1)) (runLoop env rc k)).1 = JValue.null ∨
          (attemptStep env rc (rc - (k + 1)) (runLoop env rc k)).1 = (runLoop env rc k).1 := by
        rcases attemptStep_result env rc (rc - (k + 1)) (runLoop env rc k) with h1 | h1 | h1
        · exact Or.inl h1
        · exact Or.inr h1
        · rw [h (rc - (k + 1))] at h1; cases h1
      rw [runLoop]
      split
      · split
        · rcases hstep with h1 | h1
          · simpa using h1
          · simp only [h1]; exact IH
        · split
          · rfl
          · exact IH
      · rcases hstep with h1 | h1
        · exact h1
        · rw [h1]; exact IH

/-- On an all-5xx oracle (preflight off), the loop suffix starting `k`
iterations from the end produces `None` and the request/backoff trace for
attempts `rc-k .. rc-1`. -/
theorem runLoop_serverError (env : EngineEnv) (rc : Nat)
    (hpf : env.preflightEnabled = false)
    (h : ∀ i, i < rc → isServerErrorResp (env.outcomes i) = true) (k : Nat) :
    k ≤ rc →
      runLoop env rc k =
        (JValue.null,
          (List.range' (rc - k) k).flatMap fun i =>
            Event.request i :: (if i + 1 < rc then [Event.sleep (2 ^ i)] else [])) := by
  induction k with
  | zero => intro _; rfl
  | succ k IH =>
      intro hk
      have hlt : rc - (k + 1) < rc := by omega
      have hse := h (rc - (k + 1)) hlt
      rw [runLoop, hpf]
      simp only [Bool.false_and, Bool.false_eq_true, if_false]
      rw [IH (by omega)]
      cases ho : env.outcomes (rc - (k + 1)) <;> rw [ho] at hse <;>
        simp [isServerErrorResp] at hse
      case resp s ct be p =>
        unfold attemptStep retryOr
        rw [ho]
        dsimp only
        rw [if_pos hse]
        by_cases hk1 : rc - (k + 1) + 1 < rc
        · rw [if_pos hk1]
          have e1 : rc - (k + 1) + 1 = rc - k := by omega
          simp only [List.range', List.flatMap_cons, e1]
          rw [if_pos (show rc - k < rc by omega)]
          simp
        · have hk0 : k = 0 := by omega
          subst hk0
          rw [if_neg hk1]
          simp [List.range', hk1]

/-- When the first `N` responses are 5xx and attempt `N` (still inside the
budget) sees a usable JSON response, the loop suffix whose first attempt is
at most `N` returns the unwrapped payload after backoff-sleeping through the
5xx attempts. -/
theorem runLoop_serverErrorThenSuccess (env : EngineEnv) (rc N s : Nat) (j : JValue)
    (hpf : env.preflightEnabled = false)
    (h : ∀ i, i < N → isServerErrorResp (env.outcomes i) = true)
    (ho : env.outcomes N = .resp s true false (some j))
    (hs2 : 200 ≤ s) (hs3 : s < 300) (hs45 : (s == 204 || s == 205) = false)
    (hN : N < rc) (k : Nat) (hk : rc - k ≤ N) (hk2 : k ≤ rc) :
    runLoop env rc k
      = (unwrapResponsePayload j,
         ((List.range' (rc - k) (N - (rc - k))).flatMap fun i =>
            [Event.request i, Event.sleep (2 ^ i)]) ++ [Event.request N]) := by
  induction k with
  | zero => omega
  | succ k IH =>
      rw [runLoop, hpf]
      simp only [Bool.false_and, Bool.false_eq_true, if_false]
      by_cases he : rc - (k + 1) = N
      · rw [he]
        unfold attemptStep
        rw [ho]
        dsimp only
        rw [if_neg (by omega)]
        have h23 : (200 ≤ s && s < 300) = true := by
          simp only [Bool.and_eq_true, decide_eq_true_eq]
          omega
        rw [h23, hs45]
        simp [Nat.sub_self, List.range']
      · have hlt : rc - (k + 1) < N := by omega
        have hse := h (rc - (k + 1)) hlt
        rw [IH (by omega) (by omega)]
        cases ho2 : env.outcomes (rc - (k + 1)) <;> rw [ho2] at hse <;>
          simp [isServerErrorResp] at hse
        next s' ct' be' p' =>
          unfold attemptStep retryOr
          rw [ho2]
          dsimp only
          rw [if_pos hse, if_pos (show rc - (k + 1) + 1 < rc by omega)]
          have e1 : N - (rc - (k + 1)) = (N - (rc - k)) + 1 := by omega
          have e2 : rc - (k + 1) + 1 = rc - k := by omega
          rw [e1]
          simp only [List.range', List.flatMap_cons, e2]
          simp

/-- C3: with the preflight disabled, (a) on a run whose every response has
status ≥ 500 the engine issues exactly `rc = retry_count` attempts, sleeps
`2^attempt` seconds between consecutive attempts (attempt starting at 0),
and returns `None` after exhausting the budget; (b) when only the first
`N < rc` responses are 5xx and attempt `N` succeeds, the engine retries
exactly `N` times — `min(maxAttempts-1, N)` retries, attempts `0..N` — with
the same backoff, and returns the unwrapped payload. -/
theorem c3_server_error_retry (env : EngineEnv) (rc : Nat)
    (hpf : env.preflightEnabled = false) :
    ((∀ i, i < rc → isServerErrorResp (env.outcomes i) = true) →
      makeRequest env rc = (JValue.null, allFailTrace rc (fun i => 2 ^ i)))
    ∧ (∀ N s j, N < rc →
        (∀ i, i < N → isServerErrorResp (env.outcomes i) = true) →
        env.outcomes N = .resp s true false (some j) →
        200 ≤ s → s < 300 → (s == 204 || s == 205) = false →
        makeRequest env rc
          = (unwrapResponsePayload j,
             ((List.range' 0 N).flatMap fun i => [Event.request i, Event.sleep (2 ^ i)])
               ++ [Event.request N])) := by
  constructor
  · intro h
    have key := runLoop_serverError env rc hpf h rc (Nat.le_refl rc)
    rw [makeRequest, key, allFailTrace]
    rw [Nat.sub_self, ← List.range_eq_range']
  · intro N s j hN h ho hs2 hs3 hs45
    have key := runLoop_serverErrorThenSuccess env rc N s j hpf h ho hs2 hs3 hs45 hN rc
      (by omega) (Nat.le_refl rc)
    rw [makeRequest, key, Nat.sub_self, Nat.sub_zero]

/-- Witness for C3: three 503 responses produce three requests, sleeps of 1
and 2 seconds, and a `None` result; two 503 responses followed by a usable
200 (budget 5) produce three requests, the same sleeps, and the unwrapped
payload. -/
theorem c3_server_error_retry_witness :
    makeRequest c3Env 3
      = (JValue.null, [Event.request 0, Event.sleep 1, Event.request 1, Event.sleep 2,
          Event.request 2])
    ∧ makeRequest c3EnvB 5
      = (JValue.num 5, [Event.request 0, Event.sleep 1, Event.request 1, Event.sleep 2,
          Event.request 2]) := by
  constructor
  · rw [(c3_server_error_retry c3Env 3 rfl).1 (fun i _ => rfl)]
    rfl
  · rw [(c3_server_error_retry c3EnvB 5 rfl).2 2 200 (.obj [("response", .num 5)])
      (by omega) (fun i hi => by simp [c3EnvB, if_pos hi, isServerErrorResp]) rfl
      (by omega) (by omega) rfl]
    rfl

/-- C4: the engine never surfaces an exception — every handler path returns
a value (totality of `makeRequest` in this embedding) — and whenever no
attempt yields a usable JSON response (connection failures, timeouts,
protocol errors, HTTP error statuses, malformed responses, unclassified
exceptions, in any combination), the result is `None`. -/
theorem c4_no_raise_null (env : EngineEnv) (rc : Nat)
    (h : ∀ i, isUsableOutcome (env.outcomes i) = false) :
    (makeRequest env rc).1 = JValue.null :=
  runLoop_null env rc h rc

/-- Witness for C4: three connection failures yield `None`. -/
theorem c4_no_raise_null_witness : (makeRequest c4Env 3).1 = JValue.null :=
  c4_no_raise_null c4Env 3 (fun _ => rfl)

/-- C5: any response with an HTTP error status below 500 (404 included)
makes the engine return `None` immediately — the attempt that sees it
produces no sleep and no further attempt, and a run whose first attempt
sees it performs exactly one request. -/
theorem c5_client_error_no_retry (env : EngineEnv) (rc a s : Nat) (ct be : Bool)
    (p : Option JValue) (next : JValue × List Event)
    (h4 : 400 ≤ s) (h5 : s < 500) :
    (env.outcomes a = .resp s ct be p →
      attemptStep env rc a next = (JValue.null, [Event.request a]))
    ∧ (env.preflightEnabled = false → 1 ≤ rc → env.outcomes 0 = .resp s ct be p →
      makeRequest env rc = (JValue.null, [Event.request 0])) := by
  have key : ∀ (rc' a' : Nat) (next' : JValue × List Event),
      env.outcomes a' = .resp s ct be p →
      attemptStep env rc' a' next' = (JValue.null, [Event.request a']) := by
    intro rc' a' next' ho
    unfold attemptStep
    rw [ho]
    dsimp only
    rw [if_neg (by omega)]
    have h23 : (200 ≤ s && s < 300) = false := by
      simp only [Bool.and_eq_false_iff, decide_eq_false_iff_not]
      omega
    rw [h23]
    rfl
  constructor
  · exact key rc a next
  · intro hpf h1 ho
    obtain ⟨m, rfl⟩ : ∃ m, rc = m + 1 := ⟨rc - 1, by omega⟩
    rw [makeRequest, runLoop, hpf]
    simp only [Bool.false_and, Bool.false_eq_true, if_false]
    rw [Nat.sub_self]
    exact key (m + 1) 0 _ ho

/-- Witness for C5: a 404 on the first of three allowed attempts returns
`None` after exactly one request. -/
theorem c5_client_error_no_retry_witness :
    makeRequest c5Env 3 = (JValue.null, [Event.request 0]) :=
  (c5_client_error_no_retry c5Env 3 0 404 true false none (JValue.null, [])
    (by omega) (by omega)).2 rfl (by omega) rfl

/-- Every attempt's event trace starts with its main request. -/
theorem attemptStep_trace_head (env : EngineEnv) (rc a : Nat) (next : JValue × List Event) :
    ∃ t, (attemptStep env rc a next).2 = Event.request a :: t := by
  unfold attemptStep retryOr
  cases env.outcomes a <;> dsimp only
  case resp s ct be p =>
    cases p <;> dsimp only <;> (repeat' split) <;> exact ⟨_, rfl⟩
  all_goals (split <;> exact ⟨_, rfl⟩)

/-- An attempt adds no preflight event to a preflight-free continuation. -/
theorem attemptStep_no_preflight (env : EngineEnv) (rc a : Nat)
    (next : JValue × List Event) (h : next.2.filter isPreflightEvent = []) :
    (attemptStep env rc a next).2.filter isPreflightEvent = [] := by
  unfold attemptStep retryOr
  cases env.outcomes a <;> dsimp only
  case resp s ct be p =>
    cases p <;> dsimp only <;> (repeat' split) <;> simp [isPreflightEvent, h]
  all_goals (split <;> simp [isPreflightEvent, h])

/-- Loop suffixes that never reach attempt 0 never emit a preflight event. -/
theorem runLoop_no_preflight (env : EngineEnv) (rc : Nat) (k : Nat) (hk : k < rc) :
    ((runLoop env rc k).2.filter isPreflightEvent) = [] := by
  induction k with
  | zero => rfl
  | succ k IH =>
      rw [runLoop]
      have hne : (rc - (k + 1) == 0) = false := by
        simp only [beq_eq_false_iff_ne, ne_eq]
        omega
      rw [hne]
      simp only [Bool.and_false, Bool.false_eq_true, if_false]
      exact attemptStep_no_preflight env rc _ _ (IH (by omega))

/-- C7 counterexample: preflight enabled and failing, budget 2 — the trace
is `[preflight failure, fixed 2-second sleep, main request on attempt 1]`:
exactly one preflight check ever runs, and the main request is issued
without the preflight being retried, contradicting the claim that the
engine "retries the preflight check itself before any main request is
issued". -/
theorem c7_preflight_counterexample :
    (makeRequest c7Env 2).2 = [Event.preflight false, Event.sleep 2, Event.request 1]
    ∧ ((makeRequest c7Env 2).2.filter isPreflightEvent).length = 1 := ⟨rfl, rfl⟩

/-- C7 as amended: the preflight runs only before the first attempt; on
preflight failure the main call of attempt 0 is skipped and the engine
aborts with `None` when `maxAttempts = 1`, else sleeps a fixed 2 seconds
and proceeds directly to attempt 1, which issues the main request — no
second preflight ever occurs. -/
theorem c7_preflight_amended (env : EngineEnv) (rc : Nat)
    (hpf : env.preflightEnabled = true) (hfail : env.preflightOk = false) :
    (rc = 1 → makeRequest env rc = (JValue.null, [Event.preflight false]))
    ∧ (2 ≤ rc → ∃ t, (makeRequest env rc).2
          = Event.preflight false :: Event.sleep 2 :: Event.request 1 :: t
        ∧ t.filter isPreflightEvent = []) := by
  constructor
  · rintro rfl
    rw [makeRequest, runLoop]
    simp [hpf, hfail]
  · intro h2
    obtain ⟨m, rfl⟩ : ∃ m, rc = m + 2 := ⟨rc - 2, by omega⟩
    obtain ⟨t, ht⟩ := attemptStep_trace_head env (m + 2) 1 (runLoop env (m + 2) m)
    have hnp : (attemptStep env (m + 2) 1 (runLoop env (m + 2) m)).2.filter
        isPreflightEvent = [] :=
      attemptStep_no_preflight env (m + 2) 1 _ (runLoop_no_preflight env (m + 2) m (by omega))
    rw [ht] at hnp
    simp only [List.filter_cons, isPreflightEvent] at hnp
    refine ⟨t, ?_, hnp⟩
    rw [makeRequest, runLoop]
    rw [Nat.sub_self]
    simp only [hpf, hfail, beq_self_eq_true, Bool.and_true, Bool.true_and, if_true]
    rw [if_neg (by omega : ¬ m + 2 ≤ 1)]
    have e1 : m + 2 - (m + 1) = 1 := by omega
    rw [runLoop, e1]
    simp only [hpf, Bool.true_and, Nat.one_ne_zero, beq_iff_eq, if_false]
    rw [ht]
    simp

/-- Witness for the amended C7 at the concrete failing-preflight oracle with
budget 2. -/
theorem c7_preflight_amended_witness :
    ∃ t, (makeRequest c7Env 2).2
        = Event.preflight false :: Event.sleep 2 :: Event.request 1 :: t
      ∧ t.filter isPreflightEvent = [] :=
  (c7_preflight_amended c7Env 2 rfl rfl).2 (by omega)

/-- C8 counterexample: with every attempt raising `httpx.ConnectTimeout` and
budget 6, the sleep after attempt 4 is `min(2^4, 10) = 10` seconds, not the
uncapped `2^4 = 16` the claim asserts for the connect-timeout class: the
`TimeoutException` handler (which caps at 10) catches its subclasses
`ConnectTimeout` and `ReadTimeout` before their dedicated handlers. -/
theorem c8_backoff_counterexample :
    (makeRequest c8Env 6).2
      = [Event.request 0, Event.sleep 1, Event.request 1, Event.sleep 2,
         Event.request 2, Event.sleep 4, Event.request 3, Event.sleep 8,
         Event.request 4, Event.sleep 10, Event.request 5]
    ∧ Event.sleep 16 ∉ (makeRequest c8Env 6).2 := by
  refine ⟨rfl, ?_⟩
  decide

/-- C8 as amended: when an attempt is retried, the backoff delay is
`2^attempt` (uncapped) for connection-establishment failures and
protocol-level errors, and `min(2^attempt, 10)` for every timeout class —
connect timeout, read timeout and generic timeout alike, since all three are
caught by the shared `TimeoutException` handler. -/
theorem c8_backoff_amended (env : EngineEnv) (rc a : Nat) (next : JValue × List Event)
    (hlt : a + 1 < rc) :
    (env.outcomes a = .connectError →
      attemptStep env rc a next = (next.1, Event.request a :: Event.sleep (2 ^ a) :: next.2))
    ∧ (env.outcomes a = .connectTimeout →
      attemptStep env rc a next
        = (next.1, Event.request a :: Event.sleep (min (2 ^ a) 10) :: next.2))
    ∧ (env.outcomes a = .readTimeout →
      attemptStep env rc a next
        = (next.1, Event.request a :: Event.sleep (min (2 ^ a) 10) :: next.2))
    ∧ (env.outcomes a = .otherTimeout →
      attemptStep env rc a next
        = (next.1, Event.request a :: Event.sleep (min (2 ^ a) 10) :: next.2))
    ∧ (env.outcomes a = .protocolError →
      attemptStep env rc a next
        = (next.1, Event.request a :: Event.sleep (2 ^ a) :: next.2)) := by
  refine ⟨?_, ?_, ?_, ?_, ?_⟩ <;>
    (intro ho; unfold attemptStep retryOr; rw [ho]; dsimp only; rw [if_pos hlt])

/-- Witness for the amended C8: a connect timeout at attempt 4 (budget 6)
sleeps 10 seconds. -/
theorem c8_backoff_amended_witness :
    attemptStep c8Env 6 4 (JValue.null, [])
      = (JValue.null, [Event.request 4, Event.sleep 10]) := by
  have h := (c8_backoff_amended c8Env 6 4 (JValue.null, []) (by omega)).2.1 rfl
  exact h

/-- C6 counterexample: a reference whose `uuid` (`X`) differs from both the
queried UUID and the target's `uuid` (`I1`) still matches the target through
the tag+port+type fallback — the fallback is attempted whenever the UUID
comparison with the queried UUID fails, not only when a UUID is absent, so
"a reference carrying a UUID different from the target's never matches via
the tag/port/type fallback" is false. -/
theorem c6_match_counterexample :
    matchesInboundRef "I1" (.obj c6refF) (.obj c6tgtF) = true
    ∧ dictGet c6refF "uuid" = .str "X"
    ∧ dictGet c6tgtF "uuid" = .str "I1"
    ∧ ("X" : String) ≠ "I1" := by
  refine ⟨rfl, rfl, rfl, by decide⟩

/-- C6 as amended: matching first tests the reference (a bare string, or a
dict's stringified `uuid`) against the *queried* inbound UUID; whenever that
test fails — including when the reference carries a different UUID — it
falls back to the tag+port+type conjunction against the target whenever the
target is a truthy dict. -/
theorem c6_match_amended (uuid tg ty : String) (p : Int)
    (refF tgtF : List (String × JValue)) :
    (pyStr (dictGet refF "uuid") = uuid →
      matchesInboundRef uuid (.obj refF) (.obj tgtF) = true)
    ∧ (dictGet refF "tag" = .str tg → dictGet tgtF "tag" = .str tg → tg ≠ "" →
       dictGet refF "port" = .num p → dictGet tgtF "port" = .num p →
       dictGet refF "type" = .str ty → dictGet tgtF "type" = .str ty → ty ≠ "" →
       matchesInboundRef uuid (.obj refF) (.obj tgtF) = true) := by
  constructor
  · intro h
    simp [matchesInboundRef, h]
  · intro h1 h2 h3 h4 h5 h6 h7 h8
    have hne : tgtF.isEmpty = false := by
      cases tgtF with
      | nil => rw [show dictGet [] "tag" = .null from rfl] at h2; cases h2
      | cons x xs => rfl
    unfold matchesInboundRef
    dsimp only
    split
    · rfl
    · rw [hne]
      simp only [Bool.false_eq_true, if_false]
      unfold fallbackTriple
      rw [h1, h2, h4, h5, h6, h7]
      simp [truthy, pyStr, JValue.isNull, pyInt, h3, h8]

/-- Witness for the amended C6 at the concrete reference/target pair (the
fallback fires despite the differing `uuid` fields). -/
theorem c6_match_amended_witness :
    matchesInboundRef "I1" (.obj c6refF) (.obj c6tgtF) = true :=
  (c6_match_amended "I1" "t" "vless" 443 c6refF c6tgtF).2 rfl rfl (by decide)
    rfl rfl rfl rfl (by decide)
